import Mathlib

/-!
Verification development for the DynamicEQ prototype (a parametric multi-band
equalizer running on the Web Audio API).

The definitions below are a shallow embedding of the repository's sources:

* `src/types.ts`            — `FilterType`, `DynamicSettings`, `EqBand`;
* `src/constants.ts`        — parameter range constants;
* `src/components/EqVisualizer.tsx` — `getBiquadMagnitude`, `getMagResponse`,
  and the composite-curve summation of the draw loop;
* `src/services/audioEngine.ts` — the engine state machine (`start` / `stop`),
  `updateFilters`, `exportAudio`, and `bufferToWav`.

Numeric values that are IEEE doubles in the source are embedded as rationals
(`ℚ`) where the code only performs field operations and comparisons, and as
real numbers (`ℝ`) for the transcendental DSP math (`Math.sin`, `Math.cos`,
`Math.pow`, `Math.log10`).
-/

/-! ## Data model (src/types.ts, src/constants.ts) -/

/-- `FilterType` enum from `src/types.ts`. -/
inductive FilterType where
  | lowpass
  | highpass
  | bandpass
  | lowshelf
  | highshelf
  | peaking
  | notch
  deriving DecidableEq, Repr

/-- `DynamicSettings` from `src/types.ts`. -/
structure DynamicSettings where
  enabled : Bool
  threshold : ℚ
  range : ℚ
  attack : ℚ
  release : ℚ
  ratio : ℚ
  knee : ℚ
  mix : ℚ
  deriving DecidableEq, Repr

/-- `EqBand` from `src/types.ts`. -/
structure EqBand where
  id : String
  enabled : Bool
  frequency : ℚ
  gain : ℚ
  q : ℚ
  type : FilterType
  dynamic : DynamicSettings
  color : String
  deriving DecidableEq, Repr

/-- `MIN_FREQ` from `src/constants.ts`. -/
def MIN_FREQ : ℚ := 20

/-- `MAX_FREQ` from `src/constants.ts`. -/
def MAX_FREQ : ℚ := 20000

/-- `MIN_DB` from `src/constants.ts`. -/
def MIN_DB : ℚ := -30

/-- `MAX_DB` from `src/constants.ts`. -/
def MAX_DB : ℚ := 30

/-- `MIN_Q` from `src/constants.ts`. -/
def MIN_Q : ℚ := 1/10

/-- `MAX_Q` from `src/constants.ts`. -/
def MAX_Q : ℚ := 18

/-- `DEFAULT_DYNAMIC_SETTINGS` from `src/constants.ts`. -/
def DEFAULT_DYNAMIC_SETTINGS : DynamicSettings :=
  { enabled := false
    threshold := -18
    range := -6
    attack := 10
    release := 100
    ratio := 2
    knee := 6
    mix := 100 }

/-! ## Audio engine state machine (src/services/audioEngine.ts)

The engine holds `sourceNode` (at most one active source), the decoded
`fileBuffer`, and the file-playback bookkeeping `playbackStartTime` /
`playbackOffset`.  The `AudioContext` is created lazily by `initContext`;
every public entry point calls `initContext` first, so the context (and the
noise buffer generated with it) is modelled as always present.  `currentTime`
of the context is passed in explicitly as `now`. -/

/-- Tag of the node stored in `this.sourceNode`
(`AudioBufferSourceNode` for noise and file, `OscillatorNode`,
`MediaStreamAudioSourceNode` for the microphone). -/
inductive SourceTag where
  | noise
  | oscillator
  | mic
  | file
  deriving DecidableEq, Repr

/-- Metadata of a decoded `AudioBuffer` (`this.fileBuffer`): channel count,
frame count (`length`) and sample rate. -/
structure AudioBufferMeta where
  numberOfChannels : ℕ
  length : ℕ
  sampleRate : ℚ
  deriving DecidableEq, Repr

/-- `AudioBuffer.duration = length / sampleRate` (Web Audio semantics). -/
def AudioBufferMeta.duration (b : AudioBufferMeta) : ℚ :=
  (b.length : ℚ) / b.sampleRate

/-- Truncation toward zero, the semantics of JavaScript `x|0` (for the
integral part) and of the `%` remainder operator. -/
def ratTrunc (q : ℚ) : ℤ :=
  if q < 0 then ⌈q⌉ else ⌊q⌋

/-- JavaScript remainder `a % b`: `a - b * trunc (a / b)`. -/
def jsMod (a b : ℚ) : ℚ :=
  a - b * (ratTrunc (a / b) : ℚ)

/-- Mutable state of the `AudioEngine` singleton, after `initContext` has
run.  `sourceStartPos` records the offset argument passed to the active
source node's `start()` call (`none` for the microphone stream, which has no
`start` offset). -/
structure EngineState where
  sourceNode : Option SourceTag
  fileBuffer : Option AudioBufferMeta
  playbackStartTime : ℚ
  playbackOffset : ℚ
  sourceStartPos : Option ℚ
  deriving DecidableEq, Repr

/-- Typed failures named by the spec (§7).  The implementation's `start`
never raises any of them to the caller. -/
inductive EngineError where
  | permissionError
  | loadError
  | renderError
  deriving DecidableEq, Repr

/-- `AudioEngine.stop` (src/services/audioEngine.ts lines 106-119): if a
source node is present it is stopped, disconnected and dropped, and
`currentTime - playbackStartTime` is added to `playbackOffset` — whatever
the type of the active source. -/
def AudioEngine.stop (s : EngineState) (now : ℚ) : EngineState :=
  match s.sourceNode with
  | none => s
  | some _ =>
      { s with
        sourceNode := none
        sourceStartPos := none
        playbackOffset := s.playbackOffset + (now - s.playbackStartTime) }

/-- `AudioEngine.start` (src/services/audioEngine.ts lines 57-104).
`micGranted` models the outcome of `navigator.mediaDevices.getUserMedia`;
when it is denied the code catches the rejection, logs it and simply
returns.  The returned `Option EngineError` is the error reported to the
caller; the source code never reports one (`async start` resolves normally
on every path).  Branch order follows the source: `mic`, then
`noise && noiseBuffer` (the noise buffer always exists after `initContext`),
then `file && fileBuffer`, and otherwise the oscillator fallback. -/
def AudioEngine.start (tag : SourceTag) (micGranted : Bool) (s : EngineState)
    (now : ℚ) : EngineState × Option EngineError :=
  let s' := AudioEngine.stop s now
  match tag with
  | .mic =>
      if micGranted then
        ({ s' with sourceNode := some .mic, sourceStartPos := none }, none)
      else
        (s', none)
  | .noise =>
      ({ s' with sourceNode := some .noise, sourceStartPos := some 0 }, none)
  | .file =>
      match s'.fileBuffer with
      | some fb =>
          ({ s' with
             sourceNode := some .file
             sourceStartPos := some (jsMod s'.playbackOffset fb.duration)
             playbackStartTime := now }, none)
      | none =>
          ({ s' with sourceNode := some .oscillator, sourceStartPos := some 0 }, none)
  | .oscillator =>
      ({ s' with sourceNode := some .oscillator, sourceStartPos := some 0 }, none)

/-! ## Live filter chain (updateFilters) and offline export (exportAudio) -/

/-- Parameter set copied onto a `BiquadFilterNode` (`filter.type`,
`filter.frequency.value`, `filter.Q.value`, `filter.gain.value`). -/
structure FilterConfig where
  type : FilterType
  frequency : ℚ
  q : ℚ
  gain : ℚ
  deriving DecidableEq, Repr

/-- The `BiquadFilterNode` built for one band by `AudioEngine.updateFilters`
(src/services/audioEngine.ts lines 135-139): the band's parameters are
copied verbatim — no clamping. -/
def mkLiveFilter (b : EqBand) : FilterConfig :=
  { type := b.type, frequency := b.frequency, q := b.q, gain := b.gain }

/-- `AudioEngine.updateFilters` (src/services/audioEngine.ts lines 121-150):
after disconnecting the old chain it creates one `BiquadFilterNode` per
*enabled* band, in collection order, and wires
`analyserInput → f₁ → … → fₙ → analyserOutput`.  The value modelled here is
the ordered list of filter configurations in that chain. -/
def updateFilters (bands : List EqBand) : List FilterConfig :=
  (bands.filter (fun b => b.enabled)).map mkLiveFilter

/-- The `BiquadFilterNode` built for one band by `AudioEngine.exportAudio`
(src/services/audioEngine.ts lines 178-183). -/
def mkOfflineFilter (b : EqBand) : FilterConfig :=
  { type := b.type, frequency := b.frequency, q := b.q, gain := b.gain }

/-- Result of `AudioEngine.exportAudio`: the shape of the rendered buffer and
the ordered filter chain the offline graph ran the source through. -/
structure ExportResult where
  numberOfChannels : ℕ
  length : ℕ
  sampleRate : ℚ
  chain : List FilterConfig
  deriving DecidableEq, Repr

/-- `AudioEngine.exportAudio` (src/services/audioEngine.ts lines 155-197).
With no decoded buffer it throws `Error("No audio file loaded to export")`.
Otherwise it creates an `OfflineAudioContext` with the file buffer's channel
count, length and sample rate, wires `source → enabled filters → destination`
(building the chain with the same `filter(b => b.enabled).forEach` loop as
`updateFilters`) and renders.  The Web Audio guarantee that
`startRendering` resolves with a buffer of exactly the context's channel
count, length and sample rate is modelled by returning those constructor
arguments as the shape of the result. -/
def exportAudio (bands : List EqBand) (s : EngineState) :
    Except String ExportResult :=
  match s.fileBuffer with
  | none => .error "No audio file loaded to export"
  | some fb =>
      .ok { numberOfChannels := fb.numberOfChannels
            length := fb.length
            sampleRate := fb.sampleRate
            chain := (bands.filter (fun b => b.enabled)).foldl
              (fun acc b => acc ++ [mkOfflineFilter b]) [] }

/-! ## WAV encoding (AudioEngine.bufferToWav)

`bufferToWav` (src/services/audioEngine.ts lines 199-252) serializes a
rendered `AudioBuffer` to a RIFF/WAVE byte array.  Float samples are
embedded as rationals; the produced `Blob` is modelled as the list of its
bytes (each a natural number below 256). -/

/-- The rendered buffer handed to `bufferToWav`: per-channel float sample
arrays plus frame count, channel count and sample rate.  (`sampleRate` is
written with `setUint32` and is integral in practice, so it is embedded as
`ℕ`.) -/
structure RenderedBuffer where
  numberOfChannels : ℕ
  length : ℕ
  sampleRate : ℕ
  data : List (List ℚ)
  deriving DecidableEq, Repr

/-- `buffer.getChannelData(i)`. -/
def RenderedBuffer.getChannelData (b : RenderedBuffer) (i : ℕ) : List ℚ :=
  b.data.getD i []

/-- `sample = Math.max(-1, Math.min(1, channels[i][pos]))` — the clamp to
[-1, 1] applied before integer scaling. -/
def clampSample (x : ℚ) : ℚ :=
  max (-1) (min 1 x)

/-- `sample = (0.5 + sample < 0 ? sample * 32768 : sample * 32767)|0` —
asymmetric scaling of the clamped sample to a 16-bit signed integer,
truncated toward zero by `|0`. -/
def scaleSample (x : ℚ) : ℤ :=
  let s := clampSample x
  if 0.5 + s < 0 then ratTrunc (s * 32768) else ratTrunc (s * 32767)

/-- `view.setUint16(pos, v, true)`: the two little-endian bytes of `v`
(wrapped modulo 2^16). -/
def bytesOfUint16 (v : ℕ) : List ℕ :=
  [v % 256, v / 256 % 256]

/-- `view.setUint32(pos, v, true)`: the four little-endian bytes of `v`
(wrapped modulo 2^32). -/
def bytesOfUint32 (v : ℕ) : List ℕ :=
  [v % 256, v / 256 % 256, v / 65536 % 256, v / 16777216 % 256]

/-- `view.setInt16(pos, v, true)`: two's-complement wrap modulo 2^16, then
two little-endian bytes. -/
def bytesOfInt16 (v : ℤ) : List ℕ :=
  bytesOfUint16 (v % 65536).toNat

/-- The 44-byte header written by `bufferToWav` before the sample data:
`RIFF` / file length − 8 / `WAVE`, the `fmt ` chunk (PCM, channel count,
sample rate, byte rate, block align, 16-bit), and the `data` chunk marker
with its length.  `len` is the code's `length` local
(`buffer.length * numOfChan * 2 + 44`); `length - pos - 4` at the data-size
write equals `len - 44`. -/
def wavHeader (numOfChan sampleRate len : ℕ) : List ℕ :=
  bytesOfUint32 0x46464952 ++
  bytesOfUint32 (len - 8) ++
  bytesOfUint32 0x45564157 ++
  bytesOfUint32 0x20746d66 ++
  bytesOfUint32 16 ++
  bytesOfUint16 1 ++
  bytesOfUint16 numOfChan ++
  bytesOfUint32 sampleRate ++
  bytesOfUint32 (sampleRate * 2 * numOfChan) ++
  bytesOfUint16 (numOfChan * 2) ++
  bytesOfUint16 16 ++
  bytesOfUint32 0x61746164 ++
  bytesOfUint32 (len - 44)

/-- The sample loop of `bufferToWav`
(src/services/audioEngine.ts lines 231-239).  The byte cursor `pos` is
*reused*: after the 13 header writes it equals 44, and the loop
`while (pos < buffer.length)` then employs that same variable as the frame
index (`channels[i][pos]`), so the frames actually read are
44 … `length` − 1 — and none at all when the buffer has at most 44 frames.
For each such frame, one clamped-and-scaled sample per channel in channel
order. -/
def interleavedSamples (buffer : RenderedBuffer) : List ℤ :=
  (List.range' 44 (buffer.length - 44)).flatMap (fun pos =>
    (List.range buffer.numberOfChannels).map (fun i =>
      scaleSample ((buffer.getChannelData i).getD pos 0)))

/-- `AudioEngine.bufferToWav`: the 44-byte header, then the sample bytes the
loop actually writes — `view.setInt16(44 + offset, …)` packs them
contiguously from the start of the data chunk — then the untouched
remainder of the zero-initialized `ArrayBuffer`:
`length · channels · 2` data bytes were allocated but only
`(length − 44) · channels · 2` are written, so the tail stays zero. -/
def bufferToWav (buffer : RenderedBuffer) : List ℕ :=
  wavHeader buffer.numberOfChannels buffer.sampleRate
      (buffer.length * buffer.numberOfChannels * 2 + 44) ++
    ((interleavedSamples buffer).flatMap bytesOfInt16 ++
      List.replicate (buffer.length * buffer.numberOfChannels * 2 -
        (buffer.length - 44) * buffer.numberOfChannels * 2) 0)

/-- Read back a little-endian 16-bit field at byte offset `off`. -/
def readU16 (l : List ℕ) (off : ℕ) : ℕ :=
  l.getD off 0 + 256 * l.getD (off + 1) 0

/-- Read back a little-endian 32-bit field at byte offset `off`. -/
def readU32 (l : List ℕ) (off : ℕ) : ℕ :=
  l.getD off 0 + 256 * l.getD (off + 1) 0 + 65536 * l.getD (off + 2) 0 +
    16777216 * l.getD (off + 3) 0

/-! ## Biquad magnitude response (EqVisualizer.getBiquadMagnitude)

`getBiquadMagnitude` (src/components/EqVisualizer.tsx lines 365-472)
derives Audio-EQ-Cookbook biquad coefficients at a fixed simulation sample
rate of 48000 Hz and evaluates `|H(e^{jω})|²` in dB at the query frequency.
The transcendental floating-point math is embedded over `ℝ`. -/

/-- The six biquad coefficients `b0 b1 b2 a0 a1 a2`. -/
structure BiquadCoeffs where
  b0 : ℝ
  b1 : ℝ
  b2 : ℝ
  a0 : ℝ
  a1 : ℝ
  a2 : ℝ

/-- The `switch (type)` of `getBiquadMagnitude`: cookbook coefficients from
`w0 = 2π·f0/Fs`, `alpha = sin(w0)/(2Q)` and `A = 10^(gainDb/40)`. -/
noncomputable def biquadCoeffs (type : FilterType) (f0 Q gainDb : ℝ) :
    BiquadCoeffs :=
  let Fs : ℝ := 48000
  let w0 := 2 * Real.pi * f0 / Fs
  let cosw0 := Real.cos w0
  let sinw0 := Real.sin w0
  let alpha := sinw0 / (2 * Q)
  let A := (10 : ℝ) ^ (gainDb / 40)
  match type with
  | .lowpass =>
      { b0 := (1 - cosw0) / 2, b1 := 1 - cosw0, b2 := (1 - cosw0) / 2
        a0 := 1 + alpha, a1 := -2 * cosw0, a2 := 1 - alpha }
  | .highpass =>
      { b0 := (1 + cosw0) / 2, b1 := -(1 + cosw0), b2 := (1 + cosw0) / 2
        a0 := 1 + alpha, a1 := -2 * cosw0, a2 := 1 - alpha }
  | .bandpass =>
      { b0 := alpha, b1 := 0, b2 := -alpha
        a0 := 1 + alpha, a1 := -2 * cosw0, a2 := 1 - alpha }
  | .notch =>
      { b0 := 1, b1 := -2 * cosw0, b2 := 1
        a0 := 1 + alpha, a1 := -2 * cosw0, a2 := 1 - alpha }
  | .peaking =>
      { b0 := 1 + alpha * A, b1 := -2 * cosw0, b2 := 1 - alpha * A
        a0 := 1 + alpha / A, a1 := -2 * cosw0, a2 := 1 - alpha / A }
  | .lowshelf =>
      let rootA := Real.sqrt A
      { b0 := A * ((A + 1) - (A - 1) * cosw0 + 2 * rootA * alpha)
        b1 := 2 * A * ((A - 1) - (A + 1) * cosw0)
        b2 := A * ((A + 1) - (A - 1) * cosw0 - 2 * rootA * alpha)
        a0 := (A + 1) + (A - 1) * cosw0 + 2 * rootA * alpha
        a1 := -2 * ((A - 1) + (A + 1) * cosw0)
        a2 := (A + 1) + (A - 1) * cosw0 - 2 * rootA * alpha }
  | .highshelf =>
      let rootA := Real.sqrt A
      { b0 := A * ((A + 1) + (A - 1) * cosw0 + 2 * rootA * alpha)
        b1 := -2 * A * ((A - 1) + (A + 1) * cosw0)
        b2 := A * ((A + 1) + (A - 1) * cosw0 - 2 * rootA * alpha)
        a0 := (A + 1) - (A - 1) * cosw0 + 2 * rootA * alpha
        a1 := 2 * ((A - 1) - (A + 1) * cosw0)
        a2 := (A + 1) - (A - 1) * cosw0 - 2 * rootA * alpha }

/-- The evaluation half of `getBiquadMagnitude`: normalize all coefficients
by `a0` and evaluate `|H(e^{jw})|²` at `w`. -/
noncomputable def evalMagSq (c : BiquadCoeffs) (w : ℝ) : ℝ :=
  let b0n := c.b0 / c.a0
  let b1n := c.b1 / c.a0
  let b2n := c.b2 / c.a0
  let a1n := c.a1 / c.a0
  let a2n := c.a2 / c.a0
  let cosw := Real.cos w
  let sinw := Real.sin w
  let cos2w := Real.cos (2 * w)
  let sin2w := Real.sin (2 * w)
  let numReal := b0n + b1n * cosw + b2n * cos2w
  let numImag := -(b1n * sinw) - b2n * sin2w
  let denReal := 1 + a1n * cosw + a2n * cos2w
  let denImag := -(a1n * sinw) - a2n * sin2w
  (numReal * numReal + numImag * numImag) /
    (denReal * denReal + denImag * denImag)

/-- `getBiquadMagnitude(freq, type, f0, Q, gainDb)`: coefficients at the
48 kHz simulation rate, magnitude-squared at the query frequency, and
`10·log10(max(magSq, 1e-20))` — the floor prevents `log(0)`. -/
noncomputable def getBiquadMagnitude (freq : ℝ) (type : FilterType)
    (f0 Q gainDb : ℝ) : ℝ :=
  let Fs : ℝ := 48000
  let w := 2 * Real.pi * freq / Fs
  10 * Real.logb 10 (max (evalMagSq (biquadCoeffs type f0 Q gainDb) w) 1e-20)

/-- `getMagResponse(freq, band, includeDynamic)`
(src/components/EqVisualizer.tsx lines 475-491): disabled bands contribute
0; with `includeDynamic` and dynamics enabled, Peaking/LowShelf/HighShelf
bands are evaluated at `gain + range` instead of `gain`. -/
noncomputable def getMagResponse (freq : ℝ) (band : EqBand)
    (includeDynamic : Bool) : ℝ :=
  if band.enabled then
    let gain : ℚ :=
      if includeDynamic && band.dynamic.enabled then
        if band.type = .peaking ∨ band.type = .lowshelf ∨
            band.type = .highshelf then
          band.gain + band.dynamic.range
        else band.gain
      else band.gain
    getBiquadMagnitude freq band.type (band.frequency : ℝ) (band.q : ℝ)
      (gain : ℝ)
  else 0

/-- The composite-curve accumulation of the draw loop
(src/components/EqVisualizer.tsx lines 615-619):
`bands.forEach(band => totalDb += getMagResponse(freq, band, false))`. -/
noncomputable def compositeMagnitude (bands : List EqBand) (freq : ℝ) : ℝ :=
  bands.foldl (fun totalDb band => totalDb + getMagResponse freq band false) 0

/-! ## Concrete fixtures used by the concrete-input theorems -/

/-- A concrete band used by several concrete-input theorems: an enabled
Peaking band whose frequency is far above `MAX_FREQ`. -/
def band999999 : EqBand :=
  { id := "band-x"
    enabled := true
    frequency := 999999
    gain := 0
    q := 1
    type := .peaking
    dynamic := DEFAULT_DYNAMIC_SETTINGS
    color := "#ef4444" }

/-- A concrete enabled Peaking band with dynamics enabled: 1000 Hz, gain
6 dB, Q 1, modulation range −6 dB (the default). -/
def bandC6 : EqBand :=
  { id := "band-2"
    enabled := true
    frequency := 1000
    gain := 6
    q := 1
    type := .peaking
    dynamic := { DEFAULT_DYNAMIC_SETTINGS with enabled := true }
    color := "#3b82f6" }

/-! ## Shared helper lemmas -/

/-- Appending-style `foldl` builds the map of the list. -/
lemma foldl_append_mkOfflineFilter (l : List EqBand) (acc : List FilterConfig) :
    l.foldl (fun acc b => acc ++ [mkOfflineFilter b]) acc =
      acc ++ l.map mkOfflineFilter := by
  induction l generalizing acc with
  | nil => simp
  | cons b l ih => simp [ih]

/-! ## Claim C1 — clamping before coefficient derivation -/

/-- Claim C1, counterexample: the claim says the frequency of a band
constructed with `frequency = 999999` is clamped to 20000 before
coefficient derivation / live-filter construction.  In the code
`updateFilters` copies `band.frequency` verbatim onto the
`BiquadFilterNode`: the live filter for this band carries frequency 999999,
strictly above `MAX_FREQ` — no clamping happens. -/
theorem C1_counterexample :
    updateFilters [band999999] =
      [{ type := .peaking, frequency := 999999, q := 1, gain := 0 }] ∧
    MAX_FREQ < 999999 := by
  constructor
  · rfl
  · norm_num [MAX_FREQ]

/-- Claim C1, amended: neither `updateFilters` nor `getBiquadMagnitude`
clamps band parameters (clamping exists only at the pixel-drag input
boundary of the visualizer).  Every enabled band's parameters are passed
verbatim into the live filter chain, and the derived magnitude is
nevertheless finite for arbitrary parameters: the `1e-20` floor inside
`getBiquadMagnitude` bounds it below by −200 dB. -/
theorem C1_unclamped_and_finite :
    (∀ (bands : List EqBand) (b : EqBand), b ∈ bands → b.enabled = true →
      mkLiveFilter b ∈ updateFilters bands ∧
        (mkLiveFilter b).frequency = b.frequency) ∧
    (∀ (freq : ℝ) (type : FilterType) (f0 Q g : ℝ),
      -200 ≤ getBiquadMagnitude freq type f0 Q g) := by
  constructor
  · intro bands b hmem henb
    refine ⟨List.mem_map_of_mem _ (List.mem_filter.mpr ⟨hmem, ?_⟩), rfl⟩
    simp [henb]
  · intro freq type f0 Q g
    have h20 : ((10 : ℝ) ^ ((-20 : ℝ)) : ℝ) = 1e-20 := by
      rw [Real.rpow_neg (by norm_num : (0:ℝ) ≤ 10)]
      rw [show ((20:ℝ)) = ((20:ℕ) : ℝ) by norm_num, Real.rpow_natCast]
      norm_num
    have hfloor : Real.logb 10 (1e-20) = -20 := by
      rw [← h20, Real.logb_rpow (by norm_num) (by norm_num)]
    have hle : Real.logb 10 (1e-20) ≤
        Real.logb 10 (max (evalMagSq (biquadCoeffs type f0 Q g)
          (2 * Real.pi * freq / 48000)) 1e-20) := by
      apply Real.logb_le_logb_of_le (by norm_num) (by norm_num)
      exact le_max_right _ _
    have : (-200 : ℝ) ≤ 10 * Real.logb 10
        (max (evalMagSq (biquadCoeffs type f0 Q g)
          (2 * Real.pi * freq / 48000)) 1e-20) := by
      nlinarith [hle, hfloor]
    simpa [getBiquadMagnitude] using this

/-- Claim C1, witness for the amended theorem at concrete inputs: the
out-of-range band's verbatim filter appears in the chain built from the
singleton collection, and the magnitude derived at its own (unclamped)
frequency is above the −200 dB floor. -/
theorem C1_witness :
    mkLiveFilter band999999 ∈ updateFilters [band999999] ∧
      (mkLiveFilter band999999).frequency = band999999.frequency ∧
      -200 ≤ getBiquadMagnitude 999999 .peaking 999999 1 0 := by
  refine ⟨(C1_unclamped_and_finite.1 [band999999] band999999 (by simp) rfl).1,
    (C1_unclamped_and_finite.1 [band999999] band999999 (by simp) rfl).2,
    C1_unclamped_and_finite.2 999999 .peaking 999999 1 0⟩

/-! ## Claim C2 — microphone permission denial -/

/-- Claim C2, counterexample: from a state with an active Noise source,
a denied Microphone start does *not* leave the prior graph state
unchanged (the source was already stopped and disconnected by the
unconditional `this.stop()` at the top of `start`), and no
`PermissionError` is reported (the rejection is caught, logged, and
swallowed). -/
theorem C2_counterexample :
    (EngineState.sourceNode ⟨some .noise, none, 0, 0, some 0⟩ = some .noise) ∧
    (AudioEngine.start .mic false ⟨some .noise, none, 0, 0, some 0⟩ 1).1.sourceNode
      ≠ some SourceTag.noise ∧
    (AudioEngine.start .mic false ⟨some .noise, none, 0, 0, some 0⟩ 1).2 = none := by
  refine ⟨rfl, ?_, rfl⟩
  simp [AudioEngine.start, AudioEngine.stop]

/-- Claim C2, amended: a denied Microphone start leaves the engine exactly
in the state produced by stopping the previously active source (so the
prior source is gone, not preserved), reports no error of any kind to the
caller, and wires no Microphone source — `sourceNode` is left empty, never
partially wired. -/
theorem C2_denied_mic_stops_prior_source (s : EngineState) (now : ℚ) :
    AudioEngine.start .mic false s now = (AudioEngine.stop s now, none) ∧
    (AudioEngine.start .mic false s now).1.sourceNode = none := by
  constructor
  · rfl
  · cases h : s.sourceNode <;>
      simp [AudioEngine.start, AudioEngine.stop, h]

/-! ## Claim C3 — File start with no decoded buffer -/

/-- Claim C3, counterexample: starting File playback with no decoded buffer
is neither a no-op nor a `LoadError`: the dispatch falls through to the
final `else` branch and constructs an `OscillatorNode` source. -/
theorem C3_counterexample :
    (AudioEngine.start .file true ⟨none, none, 0, 0, none⟩ 0).1.sourceNode
        = some .oscillator ∧
    (AudioEngine.start .file true ⟨none, none, 0, 0, none⟩ 0).1.sourceNode
        ≠ none ∧
    (AudioEngine.start .file true ⟨none, none, 0, 0, none⟩ 0).2 = none := by
  refine ⟨rfl, by simp [AudioEngine.start, AudioEngine.stop], rfl⟩

/-- Claim C3, amended: starting File playback with no decoded buffer
constructs and starts an Oscillator source node (the fallback branch of the
source dispatch) and reports no error. -/
theorem C3_no_buffer_starts_oscillator (s : EngineState) (now : ℚ)
    (g : Bool) (h : s.fileBuffer = none) :
    (AudioEngine.start .file g s now).1.sourceNode = some .oscillator ∧
    (AudioEngine.start .file g s now).2 = none := by
  have h' : (AudioEngine.stop s now).fileBuffer = none := by
    cases hs : s.sourceNode <;> simp [AudioEngine.stop, hs, h]
  simp [AudioEngine.start, h']

/-- Claim C3, witness: the amended theorem applied to the concrete empty
engine state. -/
theorem C3_witness :
    (AudioEngine.start .file true ⟨none, none, 0, 0, none⟩ 5).1.sourceNode
        = some .oscillator ∧
    (AudioEngine.start .file true ⟨none, none, 0, 0, none⟩ 5).2 = none :=
  C3_no_buffer_starts_oscillator ⟨none, none, 0, 0, none⟩ 5 true rfl

/-! ## Claim C4 — offline export refines the live chain -/

/-- Claim C4: with a decoded buffer present, `exportAudio` succeeds and its
offline graph runs the source through exactly the filter chain that
`updateFilters` builds for the live graph from the same band collection
(same type, frequency, Q and gain per enabled band, in collection order,
disabled bands skipped), and the rendered buffer has the same channel
count, length (frame count) and sample rate as the source buffer. -/
theorem C4_export_matches_live_chain (bands : List EqBand) (s : EngineState)
    (fb : AudioBufferMeta) (h : s.fileBuffer = some fb) :
    ∃ r : ExportResult, exportAudio bands s = .ok r ∧
      r.chain = updateFilters bands ∧
      r.numberOfChannels = fb.numberOfChannels ∧
      r.length = fb.length ∧
      r.sampleRate = fb.sampleRate := by
  have hok : exportAudio bands s = .ok
      { numberOfChannels := fb.numberOfChannels
        length := fb.length
        sampleRate := fb.sampleRate
        chain := (bands.filter (fun b => b.enabled)).foldl
          (fun acc b => acc ++ [mkOfflineFilter b]) [] } := by
    simp [exportAudio, h]
  refine ⟨_, hok, ?_, rfl, rfl, rfl⟩
  show (bands.filter (fun b => b.enabled)).foldl
      (fun acc b => acc ++ [mkOfflineFilter b]) [] = updateFilters bands
  rw [foldl_append_mkOfflineFilter]
  have hfun : mkOfflineFilter = mkLiveFilter := rfl
  simp [updateFilters, hfun]

/-- Claim C4, witness: the export of a two-band collection (one band
disabled) from an engine holding a concrete stereo buffer. -/
theorem C4_witness :
    ∃ r : ExportResult,
      exportAudio
        [{ id := "band-1", enabled := true, frequency := 100, gain := 3,
           q := 2, type := .lowshelf, dynamic := DEFAULT_DYNAMIC_SETTINGS,
           color := "#eab308" },
         { id := "band-2", enabled := false, frequency := 5000, gain := -4,
           q := 1, type := .peaking, dynamic := DEFAULT_DYNAMIC_SETTINGS,
           color := "#22c55e" }]
        ⟨none, some ⟨2, 441000, 44100⟩, 0, 0, none⟩ = .ok r ∧
      r.chain = updateFilters
        [{ id := "band-1", enabled := true, frequency := 100, gain := 3,
           q := 2, type := .lowshelf, dynamic := DEFAULT_DYNAMIC_SETTINGS,
           color := "#eab308" },
         { id := "band-2", enabled := false, frequency := 5000, gain := -4,
           q := 1, type := .peaking, dynamic := DEFAULT_DYNAMIC_SETTINGS,
           color := "#22c55e" }] ∧
      r.numberOfChannels = 2 ∧ r.length = 441000 ∧ r.sampleRate = 44100 :=
  C4_export_matches_live_chain _ _ ⟨2, 441000, 44100⟩ rfl

/-! ## Claim C10 — stop() accrues elapsed time for every source type -/

/-- Claim C10, counterexample: the claim's consequence says that for
*every* state with a loaded file, playing and then stopping a non-File
source changes the offset at which a later File resume begins.  Starting
from a loaded 10-second buffer with cumulative offset 3 and file-start
timestamp 0, a Noise play (t = 2) and stop (t = 10) drives the cumulative
offset from 3 to 13 — yet a File start at t = 11 begins at
`13 % 10 = 3`, exactly where it would have begun without the Noise
interlude: the resume position is unchanged because the offset wrapped
modulo the buffer duration. -/
theorem C10_counterexample :
    (AudioEngine.stop (AudioEngine.start .noise true
        ⟨none, some ⟨2, 480000, 48000⟩, 0, 3, none⟩ 2).1 10).playbackOffset
      = 13 ∧
    (AudioEngine.start .file true (AudioEngine.stop (AudioEngine.start .noise
        true ⟨none, some ⟨2, 480000, 48000⟩, 0, 3, none⟩ 2).1
        10) 11).1.sourceStartPos = some 3 ∧
    (AudioEngine.start .file true
        ⟨none, some ⟨2, 480000, 48000⟩, 0, 3, none⟩ 11).1.sourceStartPos
      = some 3 := by
  refine ⟨?_, ?_, ?_⟩ <;>
    norm_num [AudioEngine.start, AudioEngine.stop, jsMod, ratTrunc,
      AudioBufferMeta.duration]

/-- Claim C10, amended: stopping any active source — not only a File
source — adds `now - playbackStartTime` (the elapsed time since the last
recorded file-playback start timestamp, which non-File starts leave
untouched) to the cumulative playback offset, and a later File resume
begins at the cumulative offset taken modulo the buffer duration.  Hence a
non-File play/stop moves the later resume position except when the added
elapsed time makes the offset wrap to the same residue. -/
theorem C10_stop_accrues_for_all_sources :
    (∀ (s : EngineState) (now : ℚ) (tag : SourceTag),
      s.sourceNode = some tag →
        (AudioEngine.stop s now).playbackOffset =
          s.playbackOffset + (now - s.playbackStartTime)) ∧
    (∀ (s : EngineState) (now : ℚ) (g : Bool) (tag : SourceTag),
      tag ≠ .file →
        (AudioEngine.start tag g s now).1.playbackStartTime =
          s.playbackStartTime) ∧
    (∀ (s : EngineState) (now : ℚ) (g : Bool) (fb : AudioBufferMeta),
      s.fileBuffer = some fb →
        (AudioEngine.start .file g s now).1.sourceStartPos =
          some (jsMod (AudioEngine.stop s now).playbackOffset fb.duration)) := by
  refine ⟨?_, ?_, ?_⟩
  · intro s now tag h
    simp [AudioEngine.stop, h]
  · intro s now g tag htag
    have hstop : (AudioEngine.stop s now).playbackStartTime =
        s.playbackStartTime := by
      cases h : s.sourceNode <;> simp [AudioEngine.stop, h]
    cases tag with
    | file => exact absurd rfl htag
    | mic =>
        cases g <;> simp [AudioEngine.start, hstop]
    | noise => simp [AudioEngine.start, hstop]
    | oscillator => simp [AudioEngine.start, hstop]
  · intro s now g fb h
    have hstop : (AudioEngine.stop s now).fileBuffer = some fb := by
      cases hs : s.sourceNode <;> simp [AudioEngine.stop, hs, h]
    simp [AudioEngine.start, hstop]

/-- Claim C10, witness for the amended theorem: stopping an active Noise
source at t = 9 with file-start timestamp 0 adds the full 9 seconds to the
offset; a Noise start leaves the timestamp untouched; and a File start
resumes at the stopped offset modulo the 10-second buffer duration. -/
theorem C10_witness :
    (AudioEngine.stop ⟨some .noise, none, 0, 3, some 0⟩ 9).playbackOffset
        = 3 + (9 - 0) ∧
    (AudioEngine.start .noise true
        ⟨none, some ⟨2, 480000, 48000⟩, 0, 3, none⟩ 2).1.playbackStartTime
      = 0 ∧
    (AudioEngine.start .file true
        ⟨none, some ⟨2, 480000, 48000⟩, 0, 13, none⟩ 11).1.sourceStartPos =
      some (jsMod (AudioEngine.stop
        ⟨none, some ⟨2, 480000, 48000⟩, 0, 13, none⟩ 11).playbackOffset
        (AudioBufferMeta.duration ⟨2, 480000, 48000⟩)) :=
  ⟨C10_stop_accrues_for_all_sources.1 ⟨some .noise, none, 0, 3, some 0⟩ 9
      .noise rfl,
   C10_stop_accrues_for_all_sources.2.1
      ⟨none, some ⟨2, 480000, 48000⟩, 0, 3, none⟩ 2 true .noise (by decide),
   C10_stop_accrues_for_all_sources.2.2
      ⟨none, some ⟨2, 480000, 48000⟩, 0, 13, none⟩ 11 true
      ⟨2, 480000, 48000⟩ rfl⟩

/-! ## Claim C8 — PCM sample quantization -/

/-- The payload of the encoded file: everything after the 44-byte header is
the written sample bytes followed by the untouched zero tail of the
`ArrayBuffer`. -/
lemma bufferToWav_drop_header (buffer : RenderedBuffer) :
    (bufferToWav buffer).drop 44 =
      (interleavedSamples buffer).flatMap bytesOfInt16 ++
        List.replicate (buffer.length * buffer.numberOfChannels * 2 -
          (buffer.length - 44) * buffer.numberOfChannels * 2) 0 := by
  have h : (wavHeader buffer.numberOfChannels buffer.sampleRate
      (buffer.length * buffer.numberOfChannels * 2 + 44)).length = 44 := by
    simp [wavHeader, bytesOfUint32, bytesOfUint16]
  rw [bufferToWav]
  exact List.drop_left' h

/-- Claim C8: the claim says every floating-point sample of every rendered
buffer is clamped to [−1, 1], scaled asymmetrically by the
`0.5 + sample < 0` condition, and written as a little-endian interleaved
16-bit signed integer.  The sample loop, however, reuses the header byte
cursor `pos` (already 44) as its starting frame index, so frames 0 … 43 of
every buffer are never clamped, scaled or written — with a buffer of at
most 44 frames, nothing is.  Evaluation at the failing input: a mono
2-frame buffer whose two samples are 1/2 (whose quantization under the
claimed rule is 16383) encodes to a payload of four zero bytes, in which
the quantized samples appear nowhere. -/
theorem C8_first_frames_never_written :
    scaleSample (1/2) = 16383 ∧
    (bufferToWav ⟨1, 2, 8000, [[1/2, 1/2]]⟩).drop 44 = [0, 0, 0, 0] ∧
    (bufferToWav ⟨1, 2, 8000, [[1/2, 1/2]]⟩).drop 44 ≠
      bytesOfInt16 (scaleSample (1/2)) ++ bytesOfInt16 (scaleSample (1/2)) := by
  have hscale : scaleSample (1/2) = 16383 := by
    have hc : clampSample (1/2 : ℚ) = 1/2 := by
      norm_num [clampSample]
    rw [scaleSample, hc]
    norm_num [ratTrunc]
  have hempty : interleavedSamples ⟨1, 2, 8000, [[1/2, 1/2]]⟩ = [] := by
    have : (2 : ℕ) - 44 = 0 := by norm_num
    simp [interleavedSamples, this]
  have hdrop : (bufferToWav ⟨1, 2, 8000, [[1/2, 1/2]]⟩).drop 44 =
      [0, 0, 0, 0] := by
    rw [bufferToWav_drop_header, hempty]
    norm_num [List.replicate]
  refine ⟨hscale, hdrop, ?_⟩
  rw [hdrop, hscale]
  simp [bytesOfInt16, bytesOfUint16]

/-! ## Claim C9 — WAVE header layout -/

/-- Each 16-bit sample contributes exactly two bytes to the data chunk. -/
lemma length_flatMap_bytesOfInt16 (l : List ℤ) :
    (l.flatMap bytesOfInt16).length = 2 * l.length := by
  induction l with
  | nil => simp
  | cons v l ih => simp [bytesOfInt16, bytesOfUint16, ih]; ring

/-- A block of `C` samples per visited frame over any frame window. -/
lemma length_flatMap_range' (C : ℕ) (g : ℕ → ℕ → ℤ) :
    ∀ (n s : ℕ),
      ((List.range' s n).flatMap (fun pos =>
        (List.range C).map (g pos))).length = n * C := by
  intro n
  induction n with
  | zero => intro s; simp
  | succ n ih =>
      intro s
      rw [List.range'_succ]
      simp [ih, Nat.succ_mul]
      ring

/-- The sample loop emits `(frames − 44) × channels` samples (the reused
byte cursor makes it start at frame 44). -/
lemma length_interleavedSamples (buffer : RenderedBuffer) :
    (interleavedSamples buffer).length =
      (buffer.length - 44) * buffer.numberOfChannels := by
  rw [interleavedSamples]
  exact length_flatMap_range' buffer.numberOfChannels
    (fun pos i => scaleSample ((buffer.getChannelData i).getD pos 0))
    (buffer.length - 44) 44

/-- Claim C9: the encoded WAVE byte stream has total size
`44 + frames·channels·2`; its RIFF size field equals total size − 8
(equivalently `36 + dataBytes`); the `fmt ` chunk carries
audioFormat 1, the channel count, the sample rate,
byteRate = `sampleRate·channels·2`, blockAlign = `channels·2` and
bitsPerSample 16; and the data chunk size field is
`frames·channels·2`.  The field-width hypotheses say the values fit the
16- or 32-bit fields they are written into. -/
theorem C9_wav_header_fields (buffer : RenderedBuffer)
    (h32 : buffer.length * buffer.numberOfChannels * 2 + 36 < 2 ^ 32)
    (hch : buffer.numberOfChannels < 2 ^ 16)
    (hrate : buffer.sampleRate < 2 ^ 32)
    (hbyte : buffer.sampleRate * 2 * buffer.numberOfChannels < 2 ^ 32)
    (hba : buffer.numberOfChannels * 2 < 2 ^ 16) :
    (bufferToWav buffer).length =
        44 + buffer.length * buffer.numberOfChannels * 2 ∧
    readU32 (bufferToWav buffer) 4 =
        36 + buffer.length * buffer.numberOfChannels * 2 ∧
    readU32 (bufferToWav buffer) 4 = (bufferToWav buffer).length - 8 ∧
    readU16 (bufferToWav buffer) 20 = 1 ∧
    readU16 (bufferToWav buffer) 22 = buffer.numberOfChannels ∧
    readU32 (bufferToWav buffer) 24 = buffer.sampleRate ∧
    readU32 (bufferToWav buffer) 28 =
        buffer.sampleRate * buffer.numberOfChannels * 2 ∧
    readU16 (bufferToWav buffer) 32 = buffer.numberOfChannels * 2 ∧
    readU16 (bufferToWav buffer) 34 = 16 ∧
    readU32 (bufferToWav buffer) 40 =
        buffer.length * buffer.numberOfChannels * 2 := by
  have hdata : ((interleavedSamples buffer).flatMap bytesOfInt16).length =
      2 * ((buffer.length - 44) * buffer.numberOfChannels) := by
    rw [length_flatMap_bytesOfInt16, length_interleavedSamples]
  have hwle : (buffer.length - 44) * buffer.numberOfChannels * 2 ≤
      buffer.length * buffer.numberOfChannels * 2 :=
    Nat.mul_le_mul_right _
      (Nat.mul_le_mul_right _ (Nat.sub_le buffer.length 44))
  have hlen : (bufferToWav buffer).length =
      44 + buffer.length * buffer.numberOfChannels * 2 := by
    simp [bufferToWav, wavHeader, bytesOfUint32, bytesOfUint16, hdata]
    omega
  have hriff : readU32 (bufferToWav buffer) 4 =
      36 + buffer.length * buffer.numberOfChannels * 2 := by
    simp [bufferToWav, wavHeader, bytesOfUint32, bytesOfUint16, readU32,
      List.getD]
    omega
  have h28 : readU32 (bufferToWav buffer) 28 =
      buffer.sampleRate * 2 * buffer.numberOfChannels := by
    simp [bufferToWav, wavHeader, bytesOfUint32, bytesOfUint16, readU32,
      List.getD]
    omega
  refine ⟨hlen, hriff, by omega, ?_, ?_, ?_, ?_, ?_, ?_, ?_⟩
  · simp [bufferToWav, wavHeader, bytesOfUint32, bytesOfUint16, readU16,
      List.getD]
  · simp [bufferToWav, wavHeader, bytesOfUint32, bytesOfUint16, readU16,
      List.getD]
    omega
  · simp [bufferToWav, wavHeader, bytesOfUint32, bytesOfUint16, readU32,
      List.getD]
    omega
  · rw [h28]
    ring
  · simp [bufferToWav, wavHeader, bytesOfUint32, bytesOfUint16, readU16,
      List.getD]
    omega
  · simp [bufferToWav, wavHeader, bytesOfUint32, bytesOfUint16, readU16,
      List.getD]
  · simp [bufferToWav, wavHeader, bytesOfUint32, bytesOfUint16, readU32,
      List.getD]
    omega

/-- Claim C9, witness: the header of the WAVE encoding of a concrete
all-zero mono buffer (2 frames at 8000 Hz) — file size 48, RIFF field 40,
PCM format 1, one channel, byte rate 16000, block align 2, 16 bits,
data chunk size 4. -/
theorem C9_witness :
    (bufferToWav ⟨1, 2, 8000, [[0, 0]]⟩).length = 44 + 2 * 1 * 2 ∧
    readU32 (bufferToWav ⟨1, 2, 8000, [[0, 0]]⟩) 4 = 36 + 2 * 1 * 2 ∧
    readU32 (bufferToWav ⟨1, 2, 8000, [[0, 0]]⟩) 4 =
      (bufferToWav ⟨1, 2, 8000, [[0, 0]]⟩).length - 8 ∧
    readU16 (bufferToWav ⟨1, 2, 8000, [[0, 0]]⟩) 20 = 1 ∧
    readU16 (bufferToWav ⟨1, 2, 8000, [[0, 0]]⟩) 22 = 1 ∧
    readU32 (bufferToWav ⟨1, 2, 8000, [[0, 0]]⟩) 24 = 8000 ∧
    readU32 (bufferToWav ⟨1, 2, 8000, [[0, 0]]⟩) 28 = 8000 * 1 * 2 ∧
    readU16 (bufferToWav ⟨1, 2, 8000, [[0, 0]]⟩) 32 = 1 * 2 ∧
    readU16 (bufferToWav ⟨1, 2, 8000, [[0, 0]]⟩) 34 = 16 ∧
    readU32 (bufferToWav ⟨1, 2, 8000, [[0, 0]]⟩) 40 = 2 * 1 * 2 :=
  C9_wav_header_fields ⟨1, 2, 8000, [[0, 0]]⟩ (by norm_num) (by norm_num)
    (by norm_num) (by norm_num) (by norm_num)

/-! ## Claim C7 — composite curve is the dB sum of enabled bands -/

/-- The draw loop's `forEach` accumulation is the sum of the per-band
magnitudes. -/
lemma compositeMagnitude_foldl (bands : List EqBand) (freq : ℝ) (x : ℝ) :
    bands.foldl (fun totalDb band => totalDb + getMagResponse freq band false)
        x =
      x + (bands.map (fun b => getMagResponse freq b false)).sum := by
  induction bands generalizing x with
  | nil => simp
  | cons b l ih => simp [ih]; ring

/-- Disabled bands contribute zero, so summing over all bands equals
summing over the enabled ones. -/
lemma sum_map_filter_enabled (bands : List EqBand) (freq : ℝ) :
    ((bands.filter (fun b => b.enabled)).map
        (fun b => getMagResponse freq b false)).sum =
      (bands.map (fun b => getMagResponse freq b false)).sum := by
  induction bands with
  | nil => simp
  | cons b l ih =>
      by_cases h : b.enabled = true
      · simp [h, ih]
      · have hz : getMagResponse freq b false = 0 := by
          simp [getMagResponse, h]
        simp [h, hz, ih]

/-- Claim C7: the composite magnitude at a query frequency is the
arithmetic dB sum of the individual magnitudes of the enabled bands (in
collection order), and each disabled band contributes exactly 0 dB. -/
theorem C7_composite_is_sum_of_enabled (bands : List EqBand) (freq : ℝ) :
    compositeMagnitude bands freq =
      ((bands.filter (fun b => b.enabled)).map
        (fun b => getMagResponse freq b false)).sum ∧
    ∀ b : EqBand, b.enabled = false → getMagResponse freq b false = 0 := by
  constructor
  · rw [compositeMagnitude, compositeMagnitude_foldl,
      sum_map_filter_enabled]
    ring
  · intro b h
    simp [getMagResponse, h]

/-- Claim C7, witness: a two-band collection whose second band is disabled;
the composite equals the enabled-only sum and the disabled band
contributes 0 dB. -/
theorem C7_witness :
    compositeMagnitude
        [{ id := "band-1", enabled := true, frequency := 1000, gain := 6,
           q := 1, type := .peaking, dynamic := DEFAULT_DYNAMIC_SETTINGS,
           color := "#ef4444" },
         { id := "band-2", enabled := false, frequency := 250, gain := -9,
           q := 3, type := .notch, dynamic := DEFAULT_DYNAMIC_SETTINGS,
           color := "#22c55e" }] 440 =
      (([{ id := "band-1", enabled := true, frequency := 1000, gain := 6,
           q := 1, type := .peaking, dynamic := DEFAULT_DYNAMIC_SETTINGS,
           color := "#ef4444" },
         { id := "band-2", enabled := false, frequency := 250, gain := -9,
           q := 3, type := .notch, dynamic := DEFAULT_DYNAMIC_SETTINGS,
           color := "#22c55e" }].filter (fun b => b.enabled)).map
        (fun b => getMagResponse 440 b false)).sum ∧
    getMagResponse 440
        { id := "band-2", enabled := false, frequency := 250, gain := -9,
          q := 3, type := .notch, dynamic := DEFAULT_DYNAMIC_SETTINGS,
          color := "#22c55e" } false = 0 :=
  ⟨(C7_composite_is_sum_of_enabled _ 440).1,
   (C7_composite_is_sum_of_enabled [] 440).2 _ rfl⟩

/-! ## Biquad magnitude algebra -/

/-- With `a0 ≠ 0`, the normalized transfer-function evaluation of
`evalMagSq` equals the ratio of the raw (unnormalized) numerator and
denominator magnitudes. -/
lemma evalMagSq_raw (c : BiquadCoeffs) (w : ℝ) (ha : c.a0 ≠ 0) :
    evalMagSq c w =
      ((c.b0 + c.b1 * Real.cos w + c.b2 * Real.cos (2 * w)) ^ 2 +
        (c.b1 * Real.sin w + c.b2 * Real.sin (2 * w)) ^ 2) /
      ((c.a0 + c.a1 * Real.cos w + c.a2 * Real.cos (2 * w)) ^ 2 +
        (c.a1 * Real.sin w + c.a2 * Real.sin (2 * w)) ^ 2) := by
  obtain ⟨b0, b1, b2, a0, a1, a2⟩ := c
  simp only at ha
  simp only [evalMagSq]
  set cw := Real.cos w with hcw
  set sw := Real.sin w with hsw
  set c2 := Real.cos (2 * w) with hc2
  set s2 := Real.sin (2 * w) with hs2
  have hnum : (b0 / a0 + b1 / a0 * cw + b2 / a0 * c2) *
        (b0 / a0 + b1 / a0 * cw + b2 / a0 * c2) +
      (-(b1 / a0 * sw) - b2 / a0 * s2) * (-(b1 / a0 * sw) - b2 / a0 * s2) =
      ((b0 + b1 * cw + b2 * c2) ^ 2 + (b1 * sw + b2 * s2) ^ 2) / a0 ^ 2 := by
    field_simp
    ring
  have hden : (1 + a1 / a0 * cw + a2 / a0 * c2) *
        (1 + a1 / a0 * cw + a2 / a0 * c2) +
      (-(a1 / a0 * sw) - a2 / a0 * s2) * (-(a1 / a0 * sw) - a2 / a0 * s2) =
      ((a0 + a1 * cw + a2 * c2) ^ 2 + (a1 * sw + a2 * s2) ^ 2) / a0 ^ 2 := by
    field_simp
    ring
  rw [hnum, hden]
  rcases eq_or_ne ((a0 + a1 * cw + a2 * c2) ^ 2 + (a1 * sw + a2 * s2) ^ 2) 0
    with h | h
  · rw [h]
    simp
  · have ha2 : a0 ^ 2 ≠ 0 := pow_ne_zero _ ha
    field_simp

/-- At its own center frequency, a Peaking biquad's magnitude-squared is
exactly `A⁴` where `A = 10^(gainDb/40)` — independent of Q. -/
lemma peaking_center_magSq (f0 Q g : ℝ) (hf0 : 0 < f0) (hf1 : f0 ≤ 20000)
    (hQ : 0 < Q) :
    evalMagSq (biquadCoeffs .peaking f0 Q g) (2 * Real.pi * f0 / 48000) =
      ((10 : ℝ) ^ (g / 40)) ^ 4 := by
  set w0 : ℝ := 2 * Real.pi * f0 / 48000 with hw0def
  set A : ℝ := (10 : ℝ) ^ (g / 40) with hAdef
  set s : ℝ := Real.sin w0 with hsdef
  set c : ℝ := Real.cos w0 with hcdef
  set α : ℝ := s / (2 * Q) with halphadef
  have hw0pos : 0 < w0 := by
    rw [hw0def]
    positivity
  have hw0lt : w0 < Real.pi := by
    rw [hw0def, div_lt_iff (by norm_num : (0:ℝ) < 48000)]
    nlinarith [Real.pi_pos]
  have hs : 0 < s := Real.sin_pos_of_pos_of_lt_pi hw0pos hw0lt
  have hA : 0 < A := Real.rpow_pos_of_pos (by norm_num) _
  have halpha : 0 < α := by
    rw [halphadef]
    positivity
  have hco : biquadCoeffs .peaking f0 Q g =
      ⟨1 + α * A, -2 * c, 1 - α * A, 1 + α / A, -2 * c, 1 - α / A⟩ := rfl
  have ha0 : (1 + α / A) ≠ 0 := by positivity
  rw [hco, evalMagSq_raw _ _ (by simpa using ha0)]
  simp only
  rw [Real.cos_two_mul, Real.sin_two_mul, ← hcdef, ← hsdef]
  have hD : (1 + α / A) + -2 * c * c + (1 - α / A) * (2 * c ^ 2 - 1) =
      2 * (α / A) * (1 - c ^ 2) := by ring
  have hDpos : 0 < (1 + α / A) + -2 * c * c + (1 - α / A) * (2 * c ^ 2 - 1) := by
    rw [hD]
    have h1c : 0 < 1 - c ^ 2 := by
      nlinarith [Real.sin_sq_add_cos_sq w0, hs]
    positivity
  have hden : ((1 + α / A) + -2 * c * c + (1 - α / A) * (2 * c ^ 2 - 1)) ^ 2 +
      (-2 * c * s + (1 - α / A) * (2 * s * c)) ^ 2 ≠ 0 := by
    have := sq_nonneg (-2 * c * s + (1 - α / A) * (2 * s * c))
    nlinarith [pow_pos hDpos 2]
  rw [div_eq_iff hden]
  field_simp
  ring

/-- The magnitude in dB of a Peaking biquad at its own center frequency is
exactly its gain parameter (for any gain above the −200 dB floor). -/
lemma peaking_center_mag (f0 Q g : ℝ) (hf0 : 0 < f0) (hf1 : f0 ≤ 20000)
    (hQ : 0 < Q) (hg : -200 ≤ g) :
    getBiquadMagnitude f0 .peaking f0 Q g = g := by
  have hA4 : ((10 : ℝ) ^ (g / 40)) ^ 4 = (10 : ℝ) ^ (g / 10) := by
    rw [← Real.rpow_natCast ((10 : ℝ) ^ (g / 40)) 4,
      ← Real.rpow_mul (by norm_num : (0:ℝ) ≤ 10)]
    norm_num
    rw [show g / 40 * 4 = g / 10 by ring]
  have h20 : ((10 : ℝ) ^ ((-20 : ℝ)) : ℝ) = 1e-20 := by
    rw [Real.rpow_neg (by norm_num : (0:ℝ) ≤ 10)]
    rw [show ((20:ℝ)) = ((20:ℕ) : ℝ) by norm_num, Real.rpow_natCast]
    norm_num
  have hfloor : (1e-20 : ℝ) ≤ (10 : ℝ) ^ (g / 10) := by
    rw [← h20]
    apply Real.rpow_le_rpow_left_iff (by norm_num : (1:ℝ) < 10) |>.mpr
    linarith
  simp only [getBiquadMagnitude]
  rw [peaking_center_magSq f0 Q g hf0 hf1 hQ, hA4, max_eq_left hfloor,
    Real.logb_rpow (by norm_num) (by norm_num)]
  ring

/-! ## Claim C5 — Peaking magnitude at center equals gain -/

/-- Claim C5: for all valid frequency, Q and gain values, the magnitude of
a Peaking band evaluated at its own center frequency equals the band's
gain in dB to within ±0.2 dB (in fact exactly). -/
theorem C5_peaking_center_gain (f0 Q g : ℝ)
    (hf1 : 20 ≤ f0) (hf2 : f0 ≤ 20000)
    (hQ1 : 1/10 ≤ Q) (hQ2 : Q ≤ 18)
    (hg1 : -30 ≤ g) (hg2 : g ≤ 30) :
    |getBiquadMagnitude f0 .peaking f0 Q g - g| ≤ 1/5 := by
  rw [peaking_center_mag f0 Q g (by linarith) hf2 (by linarith) (by linarith)]
  simp

/-- Claim C5, witness: a Peaking band at 1000 Hz with Q = 1 and gain 6 dB
reads back 6 dB (to within 0.2 dB) at 1000 Hz. -/
theorem C5_witness :
    |getBiquadMagnitude 1000 .peaking 1000 1 6 - 6| ≤ 1/5 :=
  C5_peaking_center_gain 1000 1 6 (by norm_num) (by norm_num) (by norm_num)
    (by norm_num) (by norm_num) (by norm_num)

/-! ## Claim C6 — dynamics preview magnitude -/

/-- Claim C6, amended: the preview magnitude of a gain-bearing band with
dynamics enabled is the magnitude *recomputed at* `gain + range` (not, in
general, the static magnitude plus `range`); the two notions agree for a
Peaking band queried at its own center frequency.  For bands whose
dynamics is disabled, or whose filter type carries no gain, the preview
magnitude equals the static magnitude exactly. -/
theorem C6_preview_magnitude :
    (∀ (freq : ℝ) (band : EqBand), band.dynamic.enabled = false →
      getMagResponse freq band true = getMagResponse freq band false) ∧
    (∀ (freq : ℝ) (band : EqBand),
      band.type ≠ .peaking → band.type ≠ .lowshelf → band.type ≠ .highshelf →
      getMagResponse freq band true = getMagResponse freq band false) ∧
    (∀ (freq : ℝ) (band : EqBand),
      band.enabled = true → band.dynamic.enabled = true →
      (band.type = .peaking ∨ band.type = .lowshelf ∨
        band.type = .highshelf) →
      getMagResponse freq band true =
        getBiquadMagnitude freq band.type (band.frequency : ℝ)
          (band.q : ℝ) ((band.gain : ℝ) + (band.dynamic.range : ℝ))) ∧
    (∀ band : EqBand,
      band.enabled = true → band.dynamic.enabled = true →
      band.type = .peaking →
      0 < (band.frequency : ℝ) → (band.frequency : ℝ) ≤ 20000 →
      0 < (band.q : ℝ) →
      -200 ≤ (band.gain : ℝ) →
      -200 ≤ (band.gain : ℝ) + (band.dynamic.range : ℝ) →
      getMagResponse (band.frequency : ℝ) band true =
        getMagResponse (band.frequency : ℝ) band false +
          (band.dynamic.range : ℝ)) := by
  refine ⟨?_, ?_, ?_, ?_⟩
  · intro freq band h
    simp [getMagResponse, h]
  · intro freq band h1 h2 h3
    simp [getMagResponse, h1, h2, h3]
  · intro freq band henb hdyn htype
    simp [getMagResponse, henb, hdyn, htype]
  · intro band henb hdyn htype hf0 hf1 hq hg hgr
    have hprev : getMagResponse (band.frequency : ℝ) band true =
        getBiquadMagnitude (band.frequency : ℝ) band.type
          (band.frequency : ℝ) (band.q : ℝ)
          ((band.gain : ℝ) + (band.dynamic.range : ℝ)) := by
      simp [getMagResponse, henb, hdyn, htype]
    have hstat : getMagResponse (band.frequency : ℝ) band false =
        getBiquadMagnitude (band.frequency : ℝ) band.type
          (band.frequency : ℝ) (band.q : ℝ) (band.gain : ℝ) := by
      simp [getMagResponse, henb]
    rw [hprev, hstat, htype,
      peaking_center_mag _ _ _ hf0 hf1 hq hgr,
      peaking_center_mag _ _ _ hf0 hf1 hq hg]

/-- Claim C6, witness for the amended theorem: for the concrete Peaking
band `bandC6` queried at its own center frequency, the preview magnitude
equals the static magnitude plus the −6 dB range. -/
theorem C6_witness :
    getMagResponse (bandC6.frequency : ℝ) bandC6 true =
      getMagResponse (bandC6.frequency : ℝ) bandC6 false +
        (bandC6.dynamic.range : ℝ) :=
  C6_preview_magnitude.2.2.2 bandC6 rfl rfl rfl
    (by norm_num [bandC6, DEFAULT_DYNAMIC_SETTINGS])
    (by norm_num [bandC6, DEFAULT_DYNAMIC_SETTINGS])
    (by norm_num [bandC6, DEFAULT_DYNAMIC_SETTINGS])
    (by norm_num [bandC6, DEFAULT_DYNAMIC_SETTINGS])
    (by norm_num [bandC6, DEFAULT_DYNAMIC_SETTINGS])

/-- The Peaking branch of the coefficient switch, written out. -/
lemma biquadCoeffs_peaking (f0 Q g : ℝ) :
    biquadCoeffs .peaking f0 Q g =
      ⟨1 + Real.sin (2 * Real.pi * f0 / 48000) / (2 * Q) * (10:ℝ) ^ (g / 40),
       -2 * Real.cos (2 * Real.pi * f0 / 48000),
       1 - Real.sin (2 * Real.pi * f0 / 48000) / (2 * Q) * (10:ℝ) ^ (g / 40),
       1 + Real.sin (2 * Real.pi * f0 / 48000) / (2 * Q) / (10:ℝ) ^ (g / 40),
       -2 * Real.cos (2 * Real.pi * f0 / 48000),
       1 - Real.sin (2 * Real.pi * f0 / 48000) / (2 * Q) / (10:ℝ) ^ (g / 40)⟩ :=
  rfl

/-- Claim C6, counterexample: the claim says the preview magnitude at
*every* query frequency is the static magnitude plus `range`.  For
`bandC6` (center 1000 Hz, gain 6 dB, range −6 dB) queried at 12000 Hz the
preview magnitude is exactly 0 dB (the modulated gain is 6 − 6 = 0, and a
zero-gain Peaking filter is the identity), while the static magnitude at
12000 Hz is strictly between 0 and 6 dB, so static + range lies strictly
below 0: the two sides differ. -/
theorem C6_counterexample :
    getMagResponse 12000 bandC6 true ≠
      getMagResponse 12000 bandC6 false + (bandC6.dynamic.range : ℝ) := by
  have hw12 : 2 * Real.pi * 12000 / 48000 = Real.pi / 2 := by ring
  have hw0 : 2 * Real.pi * 1000 / 48000 = Real.pi / 24 := by ring
  have hpi := Real.pi_pos
  have hs0 : 0 < Real.sin (Real.pi / 24) :=
    Real.sin_pos_of_pos_of_lt_pi (by positivity) (by nlinarith)
  have hc0 : 0 < Real.cos (Real.pi / 24) :=
    Real.cos_pos_of_mem_Ioo ⟨by nlinarith, by nlinarith⟩
  set s0 : ℝ := Real.sin (Real.pi / 24) with hs0def
  set c0 : ℝ := Real.cos (Real.pi / 24) with hc0def
  have hprev : getMagResponse 12000 bandC6 true =
      getBiquadMagnitude 12000 .peaking 1000 1 0 := by
    norm_num [getMagResponse, bandC6, DEFAULT_DYNAMIC_SETTINGS]
  have hstat : getMagResponse 12000 bandC6 false =
      getBiquadMagnitude 12000 .peaking 1000 1 6 := by
    norm_num [getMagResponse, bandC6]
  have hrange : (bandC6.dynamic.range : ℝ) = -6 := by
    norm_num [bandC6, DEFAULT_DYNAMIC_SETTINGS]
  -- the preview side: modulated gain 0, A = 1, identity filter
  have hcoe0 : biquadCoeffs .peaking 1000 1 0 =
      ⟨1 + s0 / 2, -2 * c0, 1 - s0 / 2, 1 + s0 / 2, -2 * c0, 1 - s0 / 2⟩ := by
    rw [biquadCoeffs_peaking, hw0]
    rw [show ((0:ℝ) / 40) = 0 by norm_num, Real.rpow_zero]
    norm_num
  have hmag0 : evalMagSq (biquadCoeffs .peaking 1000 1 0)
      (2 * Real.pi * 12000 / 48000) = 1 := by
    rw [hcoe0, hw12, evalMagSq_raw _ _ (by positivity)]
    rw [show (2:ℝ) * (Real.pi / 2) = Real.pi by ring]
    rw [Real.cos_pi_div_two, Real.sin_pi_div_two, Real.cos_pi, Real.sin_pi]
    have hX : ((1 + s0 / 2) + -2 * c0 * 0 + (1 - s0 / 2) * (-1)) ^ 2 +
        (-2 * c0 * 1 + (1 - s0 / 2) * 0) ^ 2 = s0 ^ 2 + 4 * c0 ^ 2 := by
      ring
    rw [hX]
    exact div_self (by positivity)
  have hpm0 : getBiquadMagnitude 12000 .peaking 1000 1 0 = 0 := by
    simp only [getBiquadMagnitude]
    rw [hmag0]
    rw [show max (1:ℝ) 1e-20 = 1 by norm_num]
    simp [Real.logb_one]
  -- the static side: 0 < magnitude < 6
  set A6 : ℝ := (10:ℝ) ^ ((6:ℝ) / 40) with hA6def
  have hA6gt : 1 < A6 := by
    rw [hA6def]
    exact (Real.one_lt_rpow_iff_of_pos (by norm_num)).mpr
      (Or.inl ⟨by norm_num, by norm_num⟩)
  have hA6pos : 0 < A6 := by linarith
  have hcoe6 : biquadCoeffs .peaking 1000 1 6 =
      ⟨1 + s0 / 2 * A6, -2 * c0, 1 - s0 / 2 * A6,
       1 + s0 / 2 / A6, -2 * c0, 1 - s0 / 2 / A6⟩ := by
    rw [biquadCoeffs_peaking, hw0, hA6def]
    norm_num
  have hmag6 : evalMagSq (biquadCoeffs .peaking 1000 1 6)
      (2 * Real.pi * 12000 / 48000) =
      (s0 ^ 2 * A6 ^ 2 + 4 * c0 ^ 2) / (s0 ^ 2 / A6 ^ 2 + 4 * c0 ^ 2) := by
    rw [hcoe6, hw12, evalMagSq_raw _ _ (by positivity)]
    rw [show (2:ℝ) * (Real.pi / 2) = Real.pi by ring]
    rw [Real.cos_pi_div_two, Real.sin_pi_div_two, Real.cos_pi, Real.sin_pi]
    have hN : ((1 + s0 / 2 * A6) + -2 * c0 * 0 + (1 - s0 / 2 * A6) * (-1)) ^ 2 +
        (-2 * c0 * 1 + (1 - s0 / 2 * A6) * 0) ^ 2 =
        s0 ^ 2 * A6 ^ 2 + 4 * c0 ^ 2 := by ring
    have hD : ((1 + s0 / 2 / A6) + -2 * c0 * 0 + (1 - s0 / 2 / A6) * (-1)) ^ 2 +
        (-2 * c0 * 1 + (1 - s0 / 2 / A6) * 0) ^ 2 =
        s0 ^ 2 / A6 ^ 2 + 4 * c0 ^ 2 := by
      field_simp
      ring
    rw [hN, hD]
  have hdenpos : 0 < s0 ^ 2 / A6 ^ 2 + 4 * c0 ^ 2 := by positivity
  have hlow : 1 < (s0 ^ 2 * A6 ^ 2 + 4 * c0 ^ 2) /
      (s0 ^ 2 / A6 ^ 2 + 4 * c0 ^ 2) := by
    rw [lt_div_iff hdenpos]
    have h1 : s0 ^ 2 / A6 ^ 2 < s0 ^ 2 * A6 ^ 2 := by
      rw [div_lt_iff (by positivity)]
      have hA4 : 1 < A6 ^ 2 * A6 ^ 2 := by
        nlinarith [one_lt_pow hA6gt (two_ne_zero)]
      nlinarith [mul_lt_mul_of_pos_left hA4
        (show (0:ℝ) < s0 ^ 2 by positivity)]
    linarith
  have hA64gt : 1 < A6 ^ 4 := one_lt_pow hA6gt (by norm_num)
  have hup : (s0 ^ 2 * A6 ^ 2 + 4 * c0 ^ 2) /
      (s0 ^ 2 / A6 ^ 2 + 4 * c0 ^ 2) < A6 ^ 4 := by
    rw [div_lt_iff hdenpos]
    have hr : A6 ^ 4 * (s0 ^ 2 / A6 ^ 2 + 4 * c0 ^ 2) =
        s0 ^ 2 * A6 ^ 2 + 4 * A6 ^ 4 * c0 ^ 2 := by
      field_simp
      ring
    rw [hr]
    nlinarith [mul_lt_mul_of_pos_left hA64gt
      (show (0:ℝ) < c0 ^ 2 by positivity)]
  have hA64eq : A6 ^ 4 = (10:ℝ) ^ ((6:ℝ) / 10) := by
    rw [hA6def, ← Real.rpow_natCast ((10:ℝ) ^ ((6:ℝ) / 40)) 4,
      ← Real.rpow_mul (by norm_num : (0:ℝ) ≤ 10)]
    norm_num
  have hratiopos : 0 < (s0 ^ 2 * A6 ^ 2 + 4 * c0 ^ 2) /
      (s0 ^ 2 / A6 ^ 2 + 4 * c0 ^ 2) := by positivity
  have hstatval : getBiquadMagnitude 12000 .peaking 1000 1 6 =
      10 * Real.logb 10 ((s0 ^ 2 * A6 ^ 2 + 4 * c0 ^ 2) /
        (s0 ^ 2 / A6 ^ 2 + 4 * c0 ^ 2)) := by
    simp only [getBiquadMagnitude]
    rw [hmag6, max_eq_left (by linarith : (1e-20 : ℝ) ≤ _)]
  have hstatpos : 0 < getBiquadMagnitude 12000 .peaking 1000 1 6 := by
    rw [hstatval]
    have := Real.logb_pos (by norm_num : (1:ℝ) < 10) hlow
    linarith
  have hstatlt : getBiquadMagnitude 12000 .peaking 1000 1 6 < 6 := by
    rw [hstatval]
    have hlt := Real.logb_lt_logb (by norm_num : (1:ℝ) < 10) hratiopos hup
    rw [hA64eq, Real.logb_rpow (by norm_num) (by norm_num)] at hlt
    linarith
  rw [hprev, hstat, hpm0, hrange]
  intro h
  have : getBiquadMagnitude 12000 .peaking 1000 1 6 = 6 := by linarith
  linarith
